import Mathlib

/-!
Verification of the text-normalization pipeline of the ai-humanizer repository
(function humanize_text in src/main.py).

The pipeline is a sequence of regex detect/rewrite passes over a Unicode string.
Each Python regex used by the source is embedded as an executable matcher on
List Char, and re.findall / re.sub global scanning (leftmost, non-overlapping,
continue after each match, MULTILINE anchors resolved against the original
string) is embedded as a generic scan driver.

Modelling notes kept faithful to CPython re semantics for the exact patterns
of the source (each pattern here is deterministic once greediness is resolved):
the Python class backslash-s is the Unicode whitespace set (modelled below by
pySpace, covering the documented members); backslash-d is modelled as the
ASCII digits (non-ASCII decimal digits are not modelled); the letter classes
in the source are the literal ASCII ranges; IGNORECASE is modelled by ASCII
lowercasing, which is exact for the ASCII-only phrases the source uses.
-/

/-- Python whitespace class (re backslash-s and str.strip), per the CPython
documentation of Unicode whitespace. -/
def pySpace (c : Char) : Bool :=
  c == ' ' || c == '\t' || c == '\n' || c == '\r' || c == '\u000B' || c == '\u000C' ||
  c == '\u001C' || c == '\u001D' || c == '\u001E' || c == '\u001F' ||
  c.toNat == 0x85 || c.toNat == 0xA0 || c.toNat == 0x1680 ||
  (0x2000 ≤ c.toNat && c.toNat ≤ 0x200A) ||
  c.toNat == 0x2028 || c.toNat == 0x2029 || c.toNat == 0x202F ||
  c.toNat == 0x205F || c.toNat == 0x3000

/-- The ASCII letter class a-zA-Z used by the italic lookarounds. -/
def asciiAlpha (c : Char) : Bool :=
  (0x41 ≤ c.toNat && c.toNat ≤ 0x5A) || (0x61 ≤ c.toNat && c.toNat ≤ 0x7A)

/-- The lowercase ASCII class a-z used by the code-fence language tag. -/
def lowerAZ (c : Char) : Bool :=
  0x61 ≤ c.toNat && c.toNat ≤ 0x7A

/-- ASCII digit class (model of re backslash-d). -/
def digitC (c : Char) : Bool :=
  0x30 ≤ c.toNat && c.toNat ≤ 0x39

/-- The backtick character (code point 96). -/
def btick : Char := Char.ofNat 96

/-- The apostrophe character (code point 39). -/
def apoC : Char := Char.ofNat 39

/-- A MULTILINE caret matches at the string start or right after a newline.
The argument is the original character preceding the current position. -/
def lineStart : Option Char → Bool
  | none => true
  | some c => c == '\n'

/-- Lookbehind test: the preceding original character is an ASCII letter. -/
def prevAlpha : Option Char → Bool
  | none => false
  | some c => asciiAlpha c

/-- Lookahead test: the next character is an ASCII letter. -/
def headAlpha : List Char → Bool
  | [] => false
  | c :: _ => asciiAlpha c

/-- A matcher embeds one regex pattern at one position: given the preceding
original character and the remaining text, it either fails or returns
(n, repl), meaning the match consumes n + 1 characters and is rewritten to
repl.  Storing the consumed length minus one makes every match consume at
least one character, as all the patterns of the source do. -/
abbrev Matcher := Option Char → List Char → Option (Nat × List Char)

/-- Fuel-indexed scanner core.  The fuel bounds the number of scan steps;
every pattern of the source consumes at least one character per match, so an
initial fuel equal to the text length is always sufficient and the wrappers
below are exact.  Structural recursion on the fuel keeps every evaluation
kernel-reducible. -/
def scanSubF (m : Matcher) : Nat → Option Char → List Char → List Char
  | 0, _, l => l
  | Nat.succ fuel, prev, l =>
    match l with
    | [] => []
    | c :: rest =>
      match m prev (c :: rest) with
      | some (n, repl) => repl ++ scanSubF m fuel (some ((c :: rest).getD n c)) (rest.drop n)
      | none => c :: scanSubF m fuel (some c) rest

/-- Global substitution: scan left to right, replace each leftmost
non-overlapping match and continue after it, as re.sub does. -/
def scanSub (m : Matcher) (prev : Option Char) (l : List Char) : List Char :=
  scanSubF m l.length prev l

/-- Fuel-indexed match counter with the same scanning structure. -/
def scanCountF (m : Matcher) : Nat → Option Char → List Char → Nat
  | 0, _, _ => 0
  | Nat.succ fuel, prev, l =>
    match l with
    | [] => 0
    | c :: rest =>
      match m prev (c :: rest) with
      | some (n, _) => 1 + scanCountF m fuel (some ((c :: rest).getD n c)) (rest.drop n)
      | none => scanCountF m fuel (some c) rest

/-- Number of matches found by the same scan (the length of re.findall). -/
def scanCount (m : Matcher) (prev : Option Char) (l : List Char) : Nat :=
  scanCountF m l.length prev l

/-- Regex alternation: try the left branch first, as re does. -/
def altM (m1 m2 : Matcher) : Matcher := fun prev l =>
  match m1 prev l with
  | some r => some r
  | none => m2 prev l

/-- Case-insensitive (ASCII lowering) literal match of a lowercase pattern. -/
def isPrefixCI : List Char → List Char → Bool
  | [], _ => true
  | _ :: _, [] => false
  | p :: ps, c :: cs => (c.toLower == p) && isPrefixCI ps cs

/-- str.count for a single character. -/
def countChar (c : Char) : List Char → Nat
  | [] => 0
  | x :: xs => (if x == c then 1 else 0) + countChar c xs

/-- str.replace for a single-character needle. -/
def replaceChar (c : Char) (r : List Char) : List Char → List Char
  | [] => []
  | x :: xs => if x == c then r ++ replaceChar c r xs else x :: replaceChar c r xs

/-- str.strip(): drop Python whitespace from both ends. -/
def pyStrip (l : List Char) : List Char :=
  ((l.dropWhile pySpace).reverse.dropWhile pySpace).reverse

/-- Rule 1 pattern, first branch: double-asterisk bold. -/
def boldStarM : Matcher := fun _ l =>
  match l with
  | a :: b :: rest =>
    if a == '*' && b == '*' then
      let run := rest.takeWhile (fun c => !(c == '*'))
      match run, rest.dropWhile (fun c => !(c == '*')) with
      | [], _ => none
      | _ :: _, x :: y :: _ =>
        if x == '*' && y == '*' then some (3 + run.length, run) else none
      | _, _ => none
    else none
  | _ => none

/-- Rule 1 pattern, second branch: double-underscore bold. -/
def boldUnderM : Matcher := fun _ l =>
  match l with
  | a :: b :: rest =>
    if a == '_' && b == '_' then
      let run := rest.takeWhile (fun c => !(c == '_'))
      match run, rest.dropWhile (fun c => !(c == '_')) with
      | [], _ => none
      | _ :: _, x :: y :: _ =>
        if x == '_' && y == '_' then some (3 + run.length, run) else none
      | _, _ => none
    else none
  | _ => none

/-- Rule 2 pattern, first branch: single-asterisk italic with letter
lookarounds guarding contractions. -/
def italStarM : Matcher := fun prev l =>
  if prevAlpha prev then none else
  match l with
  | a :: rest =>
    if a == '*' then
      let run := rest.takeWhile (fun c => !(c == '*') && !(c == '\n'))
      match run, rest.dropWhile (fun c => !(c == '*') && !(c == '\n')) with
      | [], _ => none
      | _ :: _, x :: r2 =>
        if x == '*' && !headAlpha r2 then some (1 + run.length, run) else none
      | _, _ => none
    else none
  | _ => none

/-- Rule 2 pattern, second branch: single-underscore italic. -/
def italUnderM : Matcher := fun prev l =>
  if prevAlpha prev then none else
  match l with
  | a :: rest =>
    if a == '_' then
      let run := rest.takeWhile (fun c => !(c == '_') && !(c == '\n'))
      match run, rest.dropWhile (fun c => !(c == '_') && !(c == '\n')) with
      | [], _ => none
      | _ :: _, x :: r2 =>
        if x == '_' && !headAlpha r2 then some (1 + run.length, run) else none
      | _, _ => none
    else none
  | _ => none

/-- Rule 3 pattern: isolated double hyphen (lookbehind and lookahead reject a
third hyphen), rewritten to comma-space. -/
def dashM : Matcher := fun prev l =>
  match l with
  | a :: b :: r2 =>
    if a == '-' && b == '-' && !(prev == some '-') then
      match r2 with
      | c :: _ => if c == '-' then none else some (1, [',', ' '])
      | [] => some (1, [',', ' '])
    else none
  | _ => none

/-- Rule 4 pattern: one to six hash marks at line start followed by
whitespace; both marker and the whitespace run are removed. -/
def headerM : Matcher := fun prev l =>
  if !lineStart prev then none else
  let hs := l.takeWhile (fun c => c == '#')
  if hs.length < 1 || 6 < hs.length then none else
  let ws := (l.dropWhile (fun c => c == '#')).takeWhile pySpace
  if ws.length == 0 then none else some (hs.length + ws.length - 1, [])

/-- Rule 5 pattern: optional whitespace, a bullet marker, whitespace;
rewritten to the canonical dash-space. -/
def bulletM : Matcher := fun prev l =>
  if !lineStart prev then none else
  let w0 := l.takeWhile pySpace
  match l.dropWhile pySpace with
  | c :: r2 =>
    if c == '-' || c == '*' || c == '+' then
      let w1 := r2.takeWhile pySpace
      if w1.length == 0 then none
      else some (w0.length + w1.length, ['-', ' '])
    else none
  | [] => none

/-- Rule 6 pattern: optional whitespace, digits, a period, whitespace;
removed entirely. -/
def numberedM : Matcher := fun prev l =>
  if !lineStart prev then none else
  let w0 := l.takeWhile pySpace
  let r1 := l.dropWhile pySpace
  let ds := r1.takeWhile digitC
  if ds.length == 0 then none else
  match r1.dropWhile digitC with
  | c :: r2 =>
    if c == '.' then
      let w1 := r2.takeWhile pySpace
      if w1.length == 0 then none
      else some (w0.length + ds.length + w1.length, [])
    else none
  | [] => none

/-- Index of the first triple-backtick occurrence. -/
def findTriple : List Char → Option Nat
  | a :: b :: c :: rest =>
    if a == btick && b == btick && c == btick then some 0
    else (findTriple (b :: c :: rest)).map (· + 1)
  | _ => none

/-- Rule 7 detector pattern: a complete fenced block, non-greedy body. -/
def fenceDetM : Matcher := fun _ l =>
  match l with
  | a :: b :: c :: rest =>
    if a == btick && b == btick && c == btick then
      match findTriple rest with
      | some i => some (5 + i, [])
      | none => none
    else none
  | _ => none

/-- Rule 7 first rewrite pattern: a triple backtick, an optional lowercase
language tag, and an optional newline, all removed. -/
def fence1M : Matcher := fun _ l =>
  match l with
  | a :: b :: c :: rest =>
    if a == btick && b == btick && c == btick then
      let tag := rest.takeWhile lowerAZ
      match rest.dropWhile lowerAZ with
      | d :: _ => if d == '\n' then some (3 + tag.length, []) else some (2 + tag.length, [])
      | [] => some (2 + tag.length, [])
    else none
  | _ => none

/-- Rule 7 second rewrite pattern: any remaining triple backtick, removed. -/
def fence2M : Matcher := fun _ l =>
  match l with
  | a :: b :: c :: _ =>
    if a == btick && b == btick && c == btick then some (2, []) else none
  | _ => none

/-- Rule 8 pattern: an inline code span between single backticks, unwrapped
to its body. -/
def inlineM : Matcher := fun _ l =>
  match l with
  | a :: rest =>
    if a == btick then
      let run := rest.takeWhile (fun c => !(c == btick))
      match run, rest.dropWhile (fun c => !(c == btick)) with
      | [], _ => none
      | _ :: _, x :: _ => if x == btick then some (1 + run.length, run) else none
      | _, _ => none
    else none
  | _ => none

/-- Rule 9, literal line-start phrase (case-insensitive), replaced by a
fixed string.  The pattern is given lowercased and must be nonempty. -/
def litCIM (pat repl : List Char) : Matcher := fun prev l =>
  if lineStart prev && isPrefixCI pat l then some (pat.length - 1, repl) else none

/-- Rule 9, line-start phrase followed by an optional comma or bang and a
greedy whitespace run, all removed. -/
def phraseM (pat : List Char) : Matcher := fun prev l =>
  if lineStart prev && isPrefixCI pat l then
    match l.drop pat.length with
    | c :: r2 =>
      if c == ',' || c == '!' then
        some (pat.length + (r2.takeWhile pySpace).length, [])
      else
        some (pat.length + ((l.drop pat.length).takeWhile pySpace).length - 1, [])
    | [] => some (pat.length - 1, [])
  else none

/-- AI starter phrase: I apostrophe ll followed by a space. -/
def patIll : List Char := ['i', apoC, 'l', 'l', ' ']

/-- AI starter phrase: Here apostrophe s followed by a space. -/
def patHeres : List Char := ['h', 'e', 'r', 'e', apoC, 's', ' ']

/-- AI starter phrase: That apostrophe s a great, with trailing space. -/
def patThatsAGreat : List Char :=
  ['t', 'h', 'a', 't', apoC, 's', ' ', 'a', ' ', 'g', 'r', 'e', 'a', 't', ' ']

/-- AI starter phrase: I apostrophe d be happy to, with trailing space. -/
def patIdBeHappy : List Char :=
  ['i', apoC, 'd', ' ', 'b', 'e', ' ', 'h', 'a', 'p', 'p', 'y', ' ', 't', 'o', ' ']

/-- The ai_starters table of rule 9, in source order, with its one
replacement exception. -/
def aiStarters : List Matcher :=
  [ litCIM (String.toList ("let me ")) [],
    litCIM patIll [],
    litCIM patHeres [],
    litCIM (String.toList ("here is ")) [],
    phraseM (String.toList ("certainly")),
    phraseM (String.toList ("of course")),
    phraseM (String.toList ("absolutely")),
    phraseM (String.toList ("great question")),
    litCIM patThatsAGreat (String.toList ("A ")),
    litCIM patIdBeHappy [],
    litCIM (String.toList ("i would be happy to ")) [] ]

/-- Rule 9 driver: for each phrase in order, count its matches on the current
text and then rewrite, accumulating the combined count. -/
def starterFold : List Matcher → List Char → List Char × Nat
  | [], t => (t, 0)
  | m :: ms, t =>
    let c := scanCount m none t
    let r := starterFold ms (scanSub m none t)
    (r.1, c + r.2)

/-- Rule 10 pattern: a run of two or more bangs, collapsed to one. -/
def exclaimM : Matcher := fun _ l =>
  match l with
  | a :: b :: _ =>
    if a == '!' && b == '!' then
      some ((l.takeWhile (fun c => c == '!')).length - 1, ['!'])
    else none
  | _ => none

/-- The suffix of a whitespace run after its last newline. -/
def afterLastNl (w : List Char) : List Char :=
  (w.reverse.takeWhile (fun c => !(c == '\n'))).reverse

/-- Rule 11 pattern: a colon, whitespace containing a newline, then a list
marker character; the colon becomes a period and the kept group is the
whitespace after the last newline plus the marker. -/
def colonM : Matcher := fun _ l =>
  match l with
  | a :: rest =>
    if a == ':' then
      let w := rest.takeWhile pySpace
      if w.contains '\n' then
        match rest.dropWhile pySpace with
        | c :: _ =>
          if c == '-' || c == '*' || digitC c then
            some (1 + w.length, '.' :: '\n' :: (afterLastNl w ++ [c]))
          else none
        | [] => none
      else none
    else none
  | _ => none

/-- Cleanup pattern: three or more newlines collapse to exactly two. -/
def nlM : Matcher := fun _ l =>
  match l with
  | a :: b :: c :: _ =>
    if a == '\n' && b == '\n' && c == '\n' then
      some ((l.takeWhile (fun x => x == '\n')).length - 1, ['\n', '\n'])
    else none
  | _ => none

/-- Cleanup pattern: two or more spaces collapse to one. -/
def spM : Matcher := fun _ l =>
  match l with
  | a :: b :: _ =>
    if a == ' ' && b == ' ' then
      some ((l.takeWhile (fun x => x == ' ')).length - 1, [' '])
    else none
  | _ => none

/-- Rule 12 pattern: a markdown link, replaced by its label. -/
def linkM : Matcher := fun _ l =>
  match l with
  | a :: rest =>
    if a == '[' then
      let lab := rest.takeWhile (fun c => !(c == ']'))
      match lab, rest.dropWhile (fun c => !(c == ']')) with
      | [], _ => none
      | _ :: _, x :: y :: r2 =>
        if x == ']' && y == '(' then
          let url := r2.takeWhile (fun c => !(c == ')'))
          match url, r2.dropWhile (fun c => !(c == ')')) with
          | [], _ => none
          | _ :: _, z :: _ => if z == ')' then some (3 + lab.length + url.length, lab) else none
          | _, _ => none
        else none
      | _, _ => none
    else none
  | _ => none

/-- Rule 13 pattern: a line-start blockquote marker and following
whitespace, removed. -/
def quoteM : Matcher := fun prev l =>
  if !lineStart prev then none else
  match l with
  | c :: rest =>
    if c == '>' then some ((rest.takeWhile pySpace).length, []) else none
  | [] => none

/-- Rule 14 pattern: a line of three or more rule characters.  Greedy
whitespace with the MULTILINE dollar lands either at the end of the string
or just before the last newline of the following whitespace run. -/
def hrM : Matcher := fun prev l =>
  if !lineStart prev then none else
  let run := l.takeWhile (fun c => c == '-' || c == '*' || c == '_')
  if run.length < 3 then none else
  let r2 := l.dropWhile (fun c => c == '-' || c == '*' || c == '_')
  let w := r2.takeWhile pySpace
  match r2.dropWhile pySpace with
  | [] => some (run.length + w.length - 1, [])
  | _ :: _ =>
    let k := (w.reverse.dropWhile (fun c => !(c == '\n'))).length
    if k == 0 then none
    else some (run.length + (k - 1) - 1, [])

/-- One detect/rewrite step of the pipeline: the detector counts matches on
the current text, the rewriter produces the next text, and msg renders the
ChangeRecord for a nonzero count. -/
structure Rule where
  det : List Char → Nat
  rew : List Char → List Char
  msg : Nat → String

/-- Rule 1: markdown bold removal.  The detector is the alternation of both
delimiter styles; the rewriter substitutes the asterisk style first, then
the underscore style, as the source does. -/
def boldRule : Rule where
  det t := scanCount (altM boldStarM boldUnderM) none t
  rew t := scanSub boldUnderM none (scanSub boldStarM none t)
  msg n := ("Removed ") ++ toString n ++ (" bold formatting instances")

/-- Rule 2: markdown italic removal with contraction guards. -/
def italicRule : Rule where
  det t := scanCount (altM italStarM italUnderM) none t
  rew t := scanSub italUnderM none (scanSub italStarM none t)
  msg n := ("Removed ") ++ toString n ++ (" italic formatting instances")

/-- Rule 3: dash normalization.  The count combines em dashes, en dashes and
isolated double hyphens; the rewrite replaces em dash by comma-space, en
dash by hyphen, then substitutes isolated double hyphens. -/
def dashRule : Rule where
  det t := countChar '—' t + countChar '–' t + scanCount dashM none t
  rew t := scanSub dashM none (replaceChar '–' ['-'] (replaceChar '—' [',', ' '] t))
  msg n := ("Replaced ") ++ toString n ++ (" em dashes/double dashes")

/-- Rule 4: markdown header stripping. -/
def headerRule : Rule where
  det t := scanCount headerM none t
  rew t := scanSub headerM none t
  msg n := ("Removed ") ++ toString n ++ (" markdown headers")

/-- Rule 5: bullet point normalization. -/
def bulletRule : Rule where
  det t := scanCount bulletM none t
  rew t := scanSub bulletM none t
  msg n := ("Converted ") ++ toString n ++ (" bullet points")

/-- Rule 6: numbered list flattening. -/
def numberedRule : Rule where
  det t := scanCount numberedM none t
  rew t := scanSub numberedM none t
  msg n := ("Simplified ") ++ toString n ++ (" numbered items")

/-- Rule 7: fenced code-block marker removal.  The detector counts complete
fenced blocks; the rewriter strips every opening marker with its language
tag and then every remaining triple backtick. -/
def fenceRule : Rule where
  det t := scanCount fenceDetM none t
  rew t := scanSub fence2M none (scanSub fence1M none t)
  msg n := ("Removed ") ++ toString n ++ (" code block markers")

/-- Rule 8: inline code unwrapping. -/
def inlineRule : Rule where
  det t := scanCount inlineM none t
  rew t := scanSub inlineM none t
  msg n := ("Removed ") ++ toString n ++ (" inline code markers")

/-- Rule 9: AI-typical sentence starter stripping, one combined count. -/
def starterRule : Rule where
  det t := (starterFold aiStarters t).2
  rew t := (starterFold aiStarters t).1
  msg n := ("Removed ") ++ toString n ++ (" AI-typical sentence starters")

/-- Rule 10: excessive exclamation mark collapsing. -/
def exclaimRule : Rule where
  det t := scanCount exclaimM none t
  rew t := scanSub exclaimM none t
  msg n := ("Normalized ") ++ toString n ++ (" excessive exclamation marks")

/-- Rule 11: colon-before-list repair. -/
def colonRule : Rule where
  det t := scanCount colonM none t
  rew t := scanSub colonM none t
  msg n := ("Adjusted ") ++ toString n ++ (" colon-before-list patterns")

/-- Rule 12: markdown link unwrapping. -/
def linkRule : Rule where
  det t := scanCount linkM none t
  rew t := scanSub linkM none t
  msg n := ("Simplified ") ++ toString n ++ (" markdown links")

/-- Rule 13: blockquote marker stripping. -/
def quoteRule : Rule where
  det t := scanCount quoteM none t
  rew t := scanSub quoteM none t
  msg n := ("Removed ") ++ toString n ++ (" blockquote markers")

/-- Rule 14: horizontal rule removal. -/
def hrRule : Rule where
  det t := scanCount hrM none t
  rew t := scanSub hrM none t
  msg n := ("Removed ") ++ toString n ++ (" horizontal rules")

/-- The rules the source runs before the two cleanup passes (steps 1-11). -/
def rulesA : List Rule :=
  [boldRule, italicRule, dashRule, headerRule, bulletRule, numberedRule,
   fenceRule, inlineRule, starterRule, exclaimRule, colonRule]

/-- The rules the source runs after the two cleanup passes (steps 14-16). -/
def rulesB : List Rule :=
  [linkRule, quoteRule, hrRule]

/-- All fourteen rules in execution order. -/
def rules : List Rule := rulesA ++ rulesB

/-- Run one rule: count on the current text, append its ChangeRecord when
the count is nonzero, then rewrite. -/
def applyRule (r : Rule) (acc : List Char × List String) : List Char × List String :=
  (r.rew acc.1, if r.det acc.1 = 0 then acc.2 else acc.2 ++ [r.msg (r.det acc.1)])

/-- Fold a block of rules over the working text and change list. -/
def runRules (rs : List Rule) (acc : List Char × List String) : List Char × List String :=
  rs.foldl (fun a r => applyRule r a) acc

/-- The full pipeline on a character list: rules 1-11, the two unconditional
cleanup passes (newline collapse, then space collapse), rules 12-14, and the
final strip, exactly in source order. -/
def humanizeCore (l : List Char) : List Char × List String :=
  let a := runRules rulesA (l, [])
  let b := scanSub spM none (scanSub nlM none a.1)
  let c := runRules rulesB (b, a.2)
  (pyStrip c.1, c.2)

/-- The dictionary humanize_text returns. -/
structure HumanizeResult where
  original : String
  humanized : String
  changes : List String
  original_length : Nat
  humanized_length : Nat
  reduction : Int

/-- humanize_text of src/main.py: run the pipeline and assemble the result
record, lengths measured on the actual strings. -/
def humanize_text (s : String) : HumanizeResult :=
  let r := humanizeCore s.toList
  { original := s
    humanized := String.mk r.1
    changes := r.2
    original_length := s.length
    humanized_length := (String.mk r.1).length
    reduction := (Int.ofNat s.length) - (Int.ofNat (String.mk r.1).length) }

/-- Does the text contain a run of three or more consecutive newlines? -/
def containsTripleNewline : List Char → Bool
  | '\n' :: '\n' :: '\n' :: _ => true
  | _ :: rest => containsTripleNewline rest
  | [] => false

/-- No rule detector matches the given text. -/
def noMarkers (l : List Char) : Prop := ∀ r ∈ rules, r.det l = 0

/-- The unconditional rewrites of the pipeline leave the text unchanged: no
stray fence markers for the rule-7 substitutions to strip, no three-newline
run, no double-space run. -/
def cleanupStable (l : List Char) : Prop :=
  scanSub fence1M none l = l ∧ scanSub fence2M none l = l ∧
  scanSub nlM none l = l ∧ scanSub spM none l = l

/-- A text on which a run of the pipeline is a complete no-op. -/
def quiescent (l : List Char) : Prop :=
  noMarkers l ∧ cleanupStable l ∧ pyStrip l = l

instance noMarkersDec (l : List Char) : Decidable (noMarkers l) :=
  List.decidableBAll (fun r : Rule => r.det l = 0) rules

instance cleanupStableDec (l : List Char) : Decidable (cleanupStable l) :=
  instDecidableAnd

instance quiescentDec (l : List Char) : Decidable (quiescent l) :=
  instDecidableAnd

/-- A scan that finds no match rewrites nothing: only the no-match branch is
ever taken, which copies the text unchanged, and exhausted fuel also leaves
the text unchanged. -/
theorem scanCountF_zero_sub (m : Matcher) (fuel : Nat) :
    ∀ prev l, scanCountF m fuel prev l = 0 → scanSubF m fuel prev l = l := by
  induction fuel with
  | zero => intro prev l _; rfl
  | succ fuel ih =>
    intro prev l h
    cases l with
    | nil => rfl
    | cons c rest =>
      cases hm : m prev (c :: rest) with
      | some v =>
        obtain ⟨n, repl⟩ := v
        simp [scanCountF, hm] at h
      | none =>
        have h2 : scanCountF m fuel (some c) rest = 0 := by
          simpa [scanCountF, hm] using h
        simp [scanSubF, hm, ih (some c) rest h2]

/-- The wrapper form of the previous lemma: zero matches means the
substitution is the identity. -/
theorem scanCount_zero_sub (m : Matcher) (l : List Char) :
    ∀ prev, scanCount m prev l = 0 → scanSub m prev l = l :=
  fun prev h => scanCountF_zero_sub m l.length prev l h

/-- If an alternation scan finds no match, neither branch matches anywhere
along the same one-character scan, so each branch alone also counts zero. -/
theorem scanCountF_alt_zero (m1 m2 : Matcher) (fuel : Nat) :
    ∀ prev l, scanCountF (altM m1 m2) fuel prev l = 0 →
      scanCountF m1 fuel prev l = 0 ∧ scanCountF m2 fuel prev l = 0 := by
  induction fuel with
  | zero => intro prev l _; exact ⟨rfl, rfl⟩
  | succ fuel ih =>
    intro prev l h
    cases l with
    | nil => exact ⟨rfl, rfl⟩
    | cons c rest =>
      cases h1 : m1 prev (c :: rest) with
      | some v =>
        obtain ⟨n, repl⟩ := v
        simp [scanCountF, altM, h1] at h
      | none =>
        cases h2 : m2 prev (c :: rest) with
        | some v =>
          obtain ⟨n, repl⟩ := v
          simp [scanCountF, altM, h1, h2] at h
        | none =>
          have h3 := ih (some c) rest (by simpa [scanCountF, altM, h1, h2] using h)
          exact ⟨by simpa [scanCountF, h1] using h3.1, by simpa [scanCountF, h2] using h3.2⟩

/-- The wrapper form of the alternation lemma. -/
theorem scanCount_alt_zero (m1 m2 : Matcher) (l : List Char) :
    ∀ prev, scanCount (altM m1 m2) prev l = 0 →
      scanCount m1 prev l = 0 ∧ scanCount m2 prev l = 0 :=
  fun prev h => scanCountF_alt_zero m1 m2 l.length prev l h

/-- str.replace is the identity when the needle does not occur. -/
theorem countChar_zero_replace (c : Char) (r : List Char) (l : List Char) :
    countChar c l = 0 → replaceChar c r l = l := by
  induction l with
  | nil => intro _; rfl
  | cons x xs ih =>
    intro h
    by_cases hx : x == c
    · simp [countChar, hx] at h
    · simp [countChar, hx] at h
      simp [replaceChar, hx, ih h]

/-- If the combined starter count is zero, every phrase pass in the fold is
the identity. -/
theorem starterFold_zero (ms : List Matcher) :
    ∀ t, (starterFold ms t).2 = 0 → (starterFold ms t).1 = t := by
  induction ms with
  | nil => intro t _; rfl
  | cons m rest ih =>
    intro t h
    simp only [starterFold] at h ⊢
    have hc : scanCount m none t = 0 := by omega
    have hr : (starterFold rest (scanSub m none t)).2 = 0 := by omega
    rw [scanCount_zero_sub m t none hc] at hr ⊢
    exact ih t hr

/-- Rule 1 with no detection leaves the text unchanged. -/
theorem boldRule_zero (t : List Char) : boldRule.det t = 0 → boldRule.rew t = t := by
  intro h
  obtain ⟨h1, h2⟩ := scanCount_alt_zero boldStarM boldUnderM t none h
  simp only [boldRule]
  rw [scanCount_zero_sub boldStarM t none h1, scanCount_zero_sub boldUnderM t none h2]

/-- Rule 2 with no detection leaves the text unchanged. -/
theorem italicRule_zero (t : List Char) : italicRule.det t = 0 → italicRule.rew t = t := by
  intro h
  obtain ⟨h1, h2⟩ := scanCount_alt_zero italStarM italUnderM t none h
  simp only [italicRule]
  rw [scanCount_zero_sub italStarM t none h1, scanCount_zero_sub italUnderM t none h2]

/-- Rule 3 with no detection leaves the text unchanged. -/
theorem dashRule_zero (t : List Char) : dashRule.det t = 0 → dashRule.rew t = t := by
  intro h
  simp only [dashRule] at h ⊢
  have hem : countChar '—' t = 0 := by omega
  have hen : countChar '–' t = 0 := by omega
  have hdd : scanCount dashM none t = 0 := by omega
  rw [countChar_zero_replace '—' [',', ' '] t hem,
      countChar_zero_replace '–' ['-'] t hen,
      scanCount_zero_sub dashM t none hdd]

/-- Rule 4 with no detection leaves the text unchanged. -/
theorem headerRule_zero (t : List Char) : headerRule.det t = 0 → headerRule.rew t = t :=
  fun h => scanCount_zero_sub headerM t none h

/-- Rule 5 with no detection leaves the text unchanged. -/
theorem bulletRule_zero (t : List Char) : bulletRule.det t = 0 → bulletRule.rew t = t :=
  fun h => scanCount_zero_sub bulletM t none h

/-- Rule 6 with no detection leaves the text unchanged. -/
theorem numberedRule_zero (t : List Char) : numberedRule.det t = 0 → numberedRule.rew t = t :=
  fun h => scanCount_zero_sub numberedM t none h

/-- Rule 8 with no detection leaves the text unchanged. -/
theorem inlineRule_zero (t : List Char) : inlineRule.det t = 0 → inlineRule.rew t = t :=
  fun h => scanCount_zero_sub inlineM t none h

/-- Rule 9 with a combined count of zero leaves the text unchanged. -/
theorem starterRule_zero (t : List Char) : starterRule.det t = 0 → starterRule.rew t = t := by
  intro h
  simp only [starterRule] at h ⊢
  exact starterFold_zero aiStarters t h

/-- Rule 10 with no detection leaves the text unchanged. -/
theorem exclaimRule_zero (t : List Char) : exclaimRule.det t = 0 → exclaimRule.rew t = t :=
  fun h => scanCount_zero_sub exclaimM t none h

/-- Rule 11 with no detection leaves the text unchanged. -/
theorem colonRule_zero (t : List Char) : colonRule.det t = 0 → colonRule.rew t = t :=
  fun h => scanCount_zero_sub colonM t none h

/-- Rule 12 with no detection leaves the text unchanged. -/
theorem linkRule_zero (t : List Char) : linkRule.det t = 0 → linkRule.rew t = t :=
  fun h => scanCount_zero_sub linkM t none h

/-- Rule 13 with no detection leaves the text unchanged. -/
theorem quoteRule_zero (t : List Char) : quoteRule.det t = 0 → quoteRule.rew t = t :=
  fun h => scanCount_zero_sub quoteM t none h

/-- Rule 14 with no detection leaves the text unchanged. -/
theorem hrRule_zero (t : List Char) : hrRule.det t = 0 → hrRule.rew t = t :=
  fun h => scanCount_zero_sub hrM t none h

/-- Dropping a satisfied prefix twice is the same as dropping it once. -/
theorem dropWhile_dropWhile (p : Char → Bool) (l : List Char) :
    List.dropWhile p (List.dropWhile p l) = List.dropWhile p l := by
  induction l with
  | nil => rfl
  | cons c rest ih =>
    by_cases hc : p c
    · simp [List.dropWhile, hc, ih]
    · simp [List.dropWhile, hc]

/-- The head surviving a dropWhile fails the predicate. -/
theorem head_dropWhile_false (p : Char → Bool) (l : List Char) (c : Char)
    (h : (List.dropWhile p l).head? = some c) : p c = false := by
  induction l with
  | nil => simp [List.dropWhile] at h
  | cons x xs ih =>
    by_cases hx : p x
    · rw [List.dropWhile_cons, if_pos hx] at h
      exact ih h
    · rw [List.dropWhile_cons, if_neg hx] at h
      simp at h
      subst h
      simpa using hx

/-- dropWhile is the identity on a list whose head fails the predicate. -/
theorem dropWhile_eq_self (p : Char → Bool) (l : List Char)
    (h : ∀ c, l.head? = some c → p c = false) : List.dropWhile p l = l := by
  cases l with
  | nil => rfl
  | cons x xs =>
    have hx := h x (by simp)
    simp [List.dropWhile, hx]

/-- A nonempty dropWhile keeps the last element of the original list. -/
theorem getLast_dropWhile (p : Char → Bool) (l : List Char)
    (h : List.dropWhile p l ≠ []) :
    (List.dropWhile p l).getLast? = l.getLast? := by
  induction l with
  | nil => simp [List.dropWhile] at h
  | cons x xs ih =>
    by_cases hx : p x
    · rw [List.dropWhile_cons, if_pos hx] at h ⊢
      have hxs : xs ≠ [] := by
        intro e; subst e; simp [List.dropWhile] at h
      cases xs with
      | nil => exact absurd rfl hxs
      | cons b bs => rw [ih h, List.getLast?_cons_cons]
    · rw [List.dropWhile_cons, if_neg hx]

/-- str.strip is idempotent. -/
theorem pyStrip_idem (l : List Char) : pyStrip (pyStrip l) = pyStrip l := by
  set p := pySpace with hp
  set A := List.dropWhile p l with hA
  set C := List.dropWhile p A.reverse with hC
  have hQ : pyStrip l = C.reverse := rfl
  have h1 : List.dropWhile p C.reverse = C.reverse := by
    apply dropWhile_eq_self
    intro c hc
    rw [List.head?_reverse] at hc
    have hCne : C ≠ [] := by
      intro e; rw [e] at hc; simp at hc
    rw [hC, getLast_dropWhile p A.reverse (by rw [← hC]; exact hCne),
        List.getLast?_reverse] at hc
    exact head_dropWhile_false p l c (by rw [← hA]; exact hc)
  have h2 : List.dropWhile p C = C := by
    rw [hC, dropWhile_dropWhile]
  rw [hQ]
  show (((C.reverse).dropWhile p).reverse.dropWhile p).reverse = C.reverse
  rw [h1, List.reverse_reverse, h2]

/-- A rule whose detector finds nothing and whose rewrite is the identity is
a complete no-op of the driver step. -/
theorem applyRule_id (r : Rule) (t : List Char) (ch : List String)
    (h0 : r.det t = 0) (hid : r.rew t = t) : applyRule r (t, ch) = (t, ch) := by
  simp [applyRule, h0, hid]

/-- On a text where no detector fires and the unconditional rewrites are
stable, the whole pipeline reduces to the final strip and reports no
changes. -/
theorem humanizeCore_fixed (l : List Char) (hm : noMarkers l)
    (hc : cleanupStable l) : humanizeCore l = (pyStrip l, []) := by
  obtain ⟨hf1, hf2, hnl, hsp⟩ := hc
  rw [noMarkers, rules, List.forall_mem_append, rulesA, rulesB,
      List.forall_mem_cons, List.forall_mem_cons, List.forall_mem_cons,
      List.forall_mem_cons, List.forall_mem_cons, List.forall_mem_cons,
      List.forall_mem_cons, List.forall_mem_cons, List.forall_mem_cons,
      List.forall_mem_cons, List.forall_mem_cons, List.forall_mem_cons,
      List.forall_mem_cons, List.forall_mem_cons] at hm
  obtain ⟨⟨h1, h2, h3, h4, h5, h6, h7, h8, h9, h10, h11, -⟩, h12, h13, h14, -⟩ := hm
  have ef : fenceRule.rew l = l := by
    simp only [fenceRule]
    rw [hf1, hf2]
  have ha : runRules rulesA (l, ([] : List String)) = (l, []) := by
    simp only [rulesA, runRules, List.foldl]
    rw [applyRule_id boldRule l [] h1 (boldRule_zero l h1),
        applyRule_id italicRule l [] h2 (italicRule_zero l h2),
        applyRule_id dashRule l [] h3 (dashRule_zero l h3),
        applyRule_id headerRule l [] h4 (headerRule_zero l h4),
        applyRule_id bulletRule l [] h5 (bulletRule_zero l h5),
        applyRule_id numberedRule l [] h6 (numberedRule_zero l h6),
        applyRule_id fenceRule l [] h7 ef,
        applyRule_id inlineRule l [] h8 (inlineRule_zero l h8),
        applyRule_id starterRule l [] h9 (starterRule_zero l h9),
        applyRule_id exclaimRule l [] h10 (exclaimRule_zero l h10),
        applyRule_id colonRule l [] h11 (colonRule_zero l h11)]
  have hb : runRules rulesB (l, ([] : List String)) = (l, []) := by
    simp only [rulesB, runRules, List.foldl]
    rw [applyRule_id linkRule l [] h12 (linkRule_zero l h12),
        applyRule_id quoteRule l [] h13 (quoteRule_zero l h13),
        applyRule_id hrRule l [] h14 (hrRule_zero l h14)]
  simp only [humanizeCore, ha, hnl, hsp, hb]

/-- Rebuilding a string from its character list gives the string back. -/
theorem mk_toList (s : String) : String.mk s.toList = s := by
  cases s; rfl

/-- Unfolding a string built from an explicit character list. -/
theorem toList_mk (l : List Char) : String.toList (String.mk l) = l := rfl

/-- Claim C1 counterexample: rule 7 of the pipeline (the fenced code-block
rule, index 6) detects zero complete blocks on the five-character text
a-triple-backtick-b, so it emits no ChangeRecord, yet its rewrite strips
the stray marker together with the following letter as a language tag. -/
theorem claim_c1_counterexample :
    rules.getD 6 boldRule = fenceRule ∧
    fenceRule.det (['a'] ++ [btick, btick, btick] ++ ['b']) = 0 ∧
    fenceRule.rew (['a'] ++ [btick, btick, btick] ++ ['b']) ≠
      (['a'] ++ [btick, btick, btick] ++ ['b']) :=
  ⟨rfl, by decide, by decide⟩

/-- Claim C1 (amended): for every rule of the pipeline except the fenced
code-block rule, a zero detector count implies the rewrite leaves the text
unchanged for that step, so the reported count agrees with the spans the
rewrite changes; the fenced code-block rule is the single exception. -/
theorem claim_c1_theorem (i : Nat) (hi : i < rules.length) (hne : i ≠ 6)
    (t : List Char) (h : (rules.getD i boldRule).det t = 0) :
    (rules.getD i boldRule).rew t = t := by
  have h14 : rules.length = 14 := rfl
  rw [h14] at hi
  interval_cases i
  · exact boldRule_zero t h
  · exact italicRule_zero t h
  · exact dashRule_zero t h
  · exact headerRule_zero t h
  · exact bulletRule_zero t h
  · exact numberedRule_zero t h
  · exact absurd rfl hne
  · exact inlineRule_zero t h
  · exact starterRule_zero t h
  · exact exclaimRule_zero t h
  · exact colonRule_zero t h
  · exact linkRule_zero t h
  · exact quoteRule_zero t h
  · exact hrRule_zero t h

/-- Claim C1 witness: the amended statement applied to the header rule at a
concrete text it does not match. -/
theorem claim_c1_witness :
    (rules.getD 3 boldRule).rew (String.toList ("no header here")) =
      String.toList ("no header here") :=
  claim_c1_theorem 3 (by decide) (by decide) (String.toList ("no header here")) (by decide)

/-- Claim C2 counterexample: the cleanup passes run before the
horizontal-rule rule, so removing two rule lines leaves a run of three
newlines in the final output. -/
theorem claim_c2_counterexample :
    (humanize_text ("a\n---\n---\nb")).humanized = ("a\n\n\nb") ∧
    containsTripleNewline (String.toList ((humanize_text ("a\n---\n---\nb")).humanized)) = true := by
  decide

/-- Claim C2 (amended): the two cleanup passes run after the
colon-before-list rule and before the link, blockquote and horizontal-rule
rules, so newline or space runs can reappear in the output; the final trim
does run last, so the humanized text has no leading or trailing whitespace,
stated here as the strip being the identity on it. -/
theorem claim_c2_theorem (s : String) :
    pyStrip (String.toList ((humanize_text s).humanized)) =
      String.toList ((humanize_text s).humanized) := by
  simp only [humanize_text, humanizeCore, toList_mk]
  exact pyStrip_idem _

/-- Claim C3 counterexample: the double-dash rewrite keeps the space before
the inserted comma, so the humanized text is not the claimed string. -/
theorem claim_c3_counterexample :
    (humanize_text ("Line one—line two -- line three")).humanized ≠
      ("Line one, line two, line three") := by
  decide

/-- Claim C3 (amended): the run rewrites the em dash to comma-space and the
double dash to comma-space, leaving the space that preceded the double dash
in place before the comma, and reports exactly one combined dash
ChangeRecord counting 2. -/
theorem claim_c3_theorem :
    (humanize_text ("Line one—line two -- line three")).humanized =
      ("Line one, line two , line three") ∧
    (humanize_text ("Line one—line two -- line three")).changes =
      [("Replaced 2 em dashes/double dashes")] := by
  decide

/-- The C4 scenario input: Certainly! Here-apostrophe-s the answer: it
works. -/
def c4Input : String :=
  String.mk (("Certainly! Here".toList) ++ [apoC] ++ ("s the answer: it works.".toList))

/-- The output the code actually produces on the C4 scenario. -/
def c4Expected : String :=
  String.mk (("Here".toList) ++ [apoC] ++ ("s the answer: it works.".toList))

/-- Claim C4 counterexample: the opener list tries the Here-apostrophe-s
pattern before the Certainly pattern, so after Certainly-bang is stripped
the now line-initial Here-apostrophe-s is never revisited and survives. -/
theorem claim_c4_counterexample :
    (humanize_text c4Input).humanized ≠ ("the answer: it works.") := by
  decide

/-- Claim C4 (amended): on the scenario input only the Certainly opener is
stripped, because the Here-apostrophe-s pattern runs earlier in the fixed
phrase order and matched nothing at that time; the result keeps
Here-apostrophe-s and reports a single combined starter ChangeRecord
counting 1. -/
theorem claim_c4_theorem :
    (humanize_text c4Input).humanized = c4Expected ∧
    (humanize_text c4Input).changes = [("Removed 1 AI-typical sentence starters")] := by
  decide

/-- Claim C5 counterexample: a second run is not a no-op, because the first
run leaves a three-newline run (created by horizontal-rule removal after
the cleanup passes) that only the second run collapses. -/
theorem claim_c5_counterexample :
    (humanize_text ((humanize_text ("a\n---\n---\nb")).humanized)).humanized ≠
      (humanize_text ("a\n---\n---\nb")).humanized := by
  decide

/-- Claim C5 (amended): running the normalizer on its own output is a no-op
whenever that output is quiescent, that is, no rule detector fires on it
and the unconditional rewrites and the final strip leave it unchanged; the
counterexample shows it is not a no-op for every input. -/
theorem claim_c5_theorem (s : String)
    (h : quiescent (String.toList ((humanize_text s).humanized))) :
    (humanize_text ((humanize_text s).humanized)).humanized = (humanize_text s).humanized := by
  obtain ⟨hm, hc, hs⟩ := h
  show String.mk (humanizeCore (String.toList ((humanize_text s).humanized))).1 =
    (humanize_text s).humanized
  simp only [humanizeCore_fixed _ hm hc]
  rw [hs, mk_toList]

/-- Claim C5 witness: a plain sentence is its own fixpoint and its output is
quiescent. -/
theorem claim_c5_witness :
    (humanize_text ((humanize_text ("Plain sentence without any markers.")).humanized)).humanized =
      (humanize_text ("Plain sentence without any markers.")).humanized :=
  claim_c5_theorem ("Plain sentence without any markers.") (by decide)

/-- Claim C6 counterexample: on the input a-space-space-b no rule detector
matches and changes is empty, yet the unconditional space cleanup still
rewrites the text, so humanized is not the stripped original. -/
theorem claim_c6_counterexample :
    noMarkers (String.toList ("a  b")) ∧
    (humanize_text ("a  b")).changes = [] ∧
    (humanize_text ("a  b")).humanized ≠ String.mk (pyStrip (String.toList ("a  b"))) := by
  decide

/-- Claim C6 (amended): for every input on which no rule detector matches
and on which the unconditional rewrites (stray fence-marker stripping,
newline collapse, space collapse) are already stable, changes is empty and
humanized is the original input stripped of outer whitespace. -/
theorem claim_c6_theorem (s : String) (h1 : noMarkers s.toList)
    (h2 : cleanupStable s.toList) :
    (humanize_text s).changes = [] ∧
    (humanize_text s).humanized = String.mk (pyStrip s.toList) := by
  have hh := humanizeCore_fixed s.data h1 h2
  simp [humanize_text, hh]

/-- Claim C6 witness: the amended statement at a concrete marker-free
sentence. -/
theorem claim_c6_witness :
    (humanize_text ("Just a human sentence.")).changes = [] ∧
    (humanize_text ("Just a human sentence.")).humanized =
      String.mk (pyStrip (String.toList ("Just a human sentence."))) :=
  claim_c6_theorem ("Just a human sentence.") (by decide) (by decide)

/-- Claim C7: the reported lengths are computed from the actual strings:
humanized_length is the length of humanized, and reduction is the original
length minus the humanized length, exactly. -/
theorem claim_c7_theorem (s : String) :
    (humanize_text s).humanized_length = (humanize_text s).humanized.length ∧
    (humanize_text s).reduction =
      (Int.ofNat (humanize_text s).original_length) -
        (Int.ofNat (humanize_text s).humanized_length) := by
  constructor
  · simp only [humanize_text]
  · simp only [humanize_text]

/-- Claim C8: run is total by construction in this embedding (every
definition is a total Lean function, so every Unicode string yields a
well-formed result), and on the empty string it returns an empty change
list and lengths zero, zero, zero. -/
theorem claim_c8_theorem :
    (humanize_text ("")).changes = [] ∧ (humanize_text ("")).humanized = ("") ∧
    (humanize_text ("")).original_length = 0 ∧
    (humanize_text ("")).humanized_length = 0 ∧
    (humanize_text ("")).reduction = 0 := by
  decide

/-- Claim C9: humanize_text is a pure function of its input: two invocations
on the same input produce identical results, with no hidden state. -/
theorem claim_c9_theorem (s t : String) (h : s = t) :
    humanize_text s = humanize_text t := by
  rw [h]

/-- Claim C9 witness at a concrete input. -/
theorem claim_c9_witness :
    humanize_text ("the same input twice") = humanize_text ("the same input twice") :=
  claim_c9_theorem ("the same input twice") ("the same input twice") rfl

/-- Claim C10: the returned record carries the input unchanged in its
original field and its code-point count in original_length; only the other
fields reflect the transformations. -/
theorem claim_c10_theorem (s : String) :
    (humanize_text s).original = s ∧ (humanize_text s).original_length = s.length :=
  ⟨rfl, rfl⟩
